import Mathlib

/-!
Shallow embedding of the auto-retry engine of `src/auto-retry` (files
`retry-engine.ts` and `settings.ts`).  Pure functions of the source are
translated to Lean functions; the asynchronous retry loop is translated
to explicit state passing: the outcome of each awaited attempt is given
by a script `Nat → Nat → AttemptOutcome` (backend index, 1-based attempt
number within that backend's loop), and the externally mutated abort
flag of the generation context is given by a monotone observation
function `Nat → Bool` read at the code's check points, indexed by the
number of attempts completed so far in the whole run.  The timeout race
(`raceWithTimeouts`) is translated as a fold over the list of 1-second
polling-tick observations that occur before the underlying promise
settles.
-/

namespace AutoRetry

/-- Model of a JavaScript failure value as far as the engine inspects it:
whether it is an `Error` instance (and then its `message`), and its
`status` / `statusCode` properties when they are numbers (`none` models
an absent property).  All modelled errors are objects. -/
structure JsError where
  isError : Bool
  message : String
  status : Option Int
  statusCode : Option Int
  deriving DecidableEq

/-- Result of `status ?? statusCode` property access on an error object. -/
def effStatus (e : JsError) : Option Int :=
  match e.status with
  | some n => some n
  | none => e.statusCode

/-- Decidable check that `pat` occurs as a contiguous sublist of the
second argument. -/
def hasSubList (pat : List Char) : List Char → Bool
  | [] => pat.isEmpty
  | c :: rest => List.isPrefixOf pat (c :: rest) || hasSubList pat rest

/-- Substring containment, the semantics of JavaScript
`String.prototype.includes`. -/
def includesSub (s pat : String) : Bool :=
  hasSubList pat.data s.data

/-- ASCII lower-casing of one character: the fragment of JavaScript
`toLowerCase` that the classifier's keyword matching relies on (all
keywords are ASCII). -/
def lowerChar : Char → Char
  | 'A' => 'a'
  | 'B' => 'b'
  | 'C' => 'c'
  | 'D' => 'd'
  | 'E' => 'e'
  | 'F' => 'f'
  | 'G' => 'g'
  | 'H' => 'h'
  | 'I' => 'i'
  | 'J' => 'j'
  | 'K' => 'k'
  | 'L' => 'l'
  | 'M' => 'm'
  | 'N' => 'n'
  | 'O' => 'o'
  | 'P' => 'p'
  | 'Q' => 'q'
  | 'R' => 'r'
  | 'S' => 's'
  | 'T' => 't'
  | 'U' => 'u'
  | 'V' => 'v'
  | 'W' => 'w'
  | 'X' => 'x'
  | 'Y' => 'y'
  | 'Z' => 'z'
  | c => c

/-- Lower-casing of a message string, the semantics of
`error.message.toLowerCase()` on the ASCII range. -/
def toLowerStr (s : String) : String :=
  String.mk (s.data.map lowerChar)

/-- Rate-limit keyword test performed by `isRateLimitError` on the
lower-cased message. -/
def rateLimitMsg (msg : String) : Bool :=
  includesSub msg "rate limit" || includesSub msg "too many requests" ||
    includesSub msg "quota exceeded"

/-- Network/timeout keyword test performed by `isRetryableError` on the
lower-cased message. -/
def networkMsg (msg : String) : Bool :=
  includesSub msg "network" || includesSub msg "fetch" || includesSub msg "timeout" ||
    includesSub msg "connection refused" || includesSub msg "connection reset" ||
    includesSub msg "econnrefused" || includesSub msg "econnreset"

/-- Translation of `isRateLimitError` (retry-engine.ts lines 48-60). -/
def isRateLimitError (e : JsError) : Bool :=
  if e.isError && rateLimitMsg (toLowerStr e.message) then true
  else
    match effStatus e with
    | some n => n == 429
    | none => false

/-- Translation of `isRetryableError` (retry-engine.ts lines 62-88). -/
def isRetryableError (e : JsError) : Bool :=
  if isRateLimitError e then true
  else if e.isError && networkMsg (toLowerStr e.message) then true
  else
    match effStatus e with
    | some n => decide (500 ≤ n) && decide (n < 600)
    | none => false

/-- Fallback backend descriptor (settings.ts lines 1-6). -/
structure FallbackModel where
  apiurl : String
  key : String
  model : String
  source : String
  deriving DecidableEq

/-- Generation-id filter mode (settings.ts line 31). -/
inductive FilterMode where
  | whitelist
  | blacklist
  deriving DecidableEq

/-- Configuration object (settings.ts lines 10-38).  The backoff
multiplier is a rational standing for the JavaScript number. -/
structure Settings where
  enabled : Bool
  maxRetries : Nat
  retryDelayMs : Nat
  retryDelayMultiplier : Rat
  rateLimitDelayMs : Nat
  rateLimitMaxRetries : Nat
  streamingTimeoutMs : Nat
  requiredContentEnabled : Bool
  requiredContentPattern : String
  requiredContentIsRegex : Bool
  fallbackModelsEnabled : Bool
  fallbackModels : List FallbackModel
  filterEnabled : Bool
  filterMode : FilterMode
  filterGenerationIds : List String
  showRetryToast : Bool
  showSuccessToast : Bool
  showFailureToast : Bool

/-- Translation of `validateContent` (retry-engine.ts lines 90-106).
JavaScript regex compilation and matching is abstracted as a capability
`regexSem`: `none` models a pattern on which `new RegExp` throws,
`some test` models a compiled regex and its `test` method.  The `catch`
branch of the source returns `true` (fail open). -/
def validateContent (regexSem : String → Option (String → Bool))
    (content : String) (s : Settings) : Bool :=
  if !s.requiredContentEnabled || s.requiredContentPattern = "" then true
  else if s.requiredContentIsRegex then
    match regexSem s.requiredContentPattern with
    | some test => test content
    | none => true
  else includesSub content s.requiredContentPattern

/-- Translation of `calculateDelay` (retry-engine.ts lines 108-113). -/
def calculateDelay (attempt : Nat) (s : Settings) (isRateLimit : Bool) : Rat :=
  if isRateLimit then (s.rateLimitDelayMs : Rat)
  else (s.retryDelayMs : Rat) * s.retryDelayMultiplier ^ (attempt - 1)

/-- Translation of `shouldRetryGeneration` (retry-engine.ts lines
119-128). -/
def shouldRetryGeneration (generationId : String) (s : Settings) : Bool :=
  if !s.filterEnabled then true
  else
    let isInList := s.filterGenerationIds.contains generationId
    match s.filterMode with
    | .whitelist => isInList
    | .blacklist => !isInList

/-- Settled outcome of one awaited attempt, as the retry loop observes
it after `await raceWithTimeouts(...)`: a string result, a non-string
result, or a thrown error. -/
inductive AttemptOutcome where
  | ok (s : String)
  | okOther
  | err (e : JsError)
  deriving DecidableEq

/-- Value in the `result` field of a `RetryResult`. -/
inductive ResVal where
  | str (s : String)
  | other
  deriving DecidableEq

/-- Translation of the `RetryResult` interface (retry-engine.ts lines
16-23). -/
structure RetryResult where
  success : Bool
  result : Option ResVal
  error : Option JsError
  attempts : Nat
  usedFallback : Bool
  fallbackModel : Option FallbackModel
  deriving DecidableEq

/-- The `new Error('Aborted by user')` value of the abort returns. -/
def abortErr : JsError := ⟨true, "Aborted by user", none, none⟩

/-- The `new Error('Content validation failed')` value of the
validation-failure path. -/
def contentErr : JsError := ⟨true, "Content validation failed", none, none⟩

/-- Exit of one backend's `while` loop: either a `return` statement was
executed inside the loop (carrying the returned `RetryResult` and the
total attempt count so far), or control fell out of the loop (by its
guard or a `break`), carrying the loop's final `attempt` counter, the
`lastError` variable and the total attempt count. -/
inductive LoopExit where
  | done (r : RetryResult) (total : Nat)
  | fellThrough (attempt : Nat) (lastError : Option JsError) (total : Nat)
  deriving DecidableEq

/-- Abort-flag observation function that is never set: the common case
of a run with no external cancellation. -/
def abNever : Nat → Bool := fun _ => false

/-- Translation of the primary `while (attempt < maxRetries)` loop of
`executeRetryLoop` (retry-engine.ts lines 189-247).  `fuel` is the
number of loop-guard successes still possible, maintained equal to
`maxRetries - attempt`, so `fuel = 0` is exactly the guard failing;
`a` is the `attempt` variable, `t` the total number of attempts
completed in the run, `lastErr` the `lastError` variable.  `script b k`
is the settled outcome of attempt `k` against backend `b` (`0` is the
primary backend) and `ab t` is the abort flag as observable after `t`
completed attempts.  In the primary loop `usedFallback` is still
`false` and `currentFallbackModel` undefined, so the returns carry
`false` and `none` there. -/
def primaryLoop (s : Settings) (regexSem : String → Option (String → Bool))
    (script : Nat → Nat → AttemptOutcome) (ab : Nat → Bool) :
    Nat → Nat → Nat → Option JsError → LoopExit
  | 0, a, t, lastErr => .fellThrough a lastErr t
  | fuel + 1, a, t, _lastErr =>
    if ab t then .done ⟨false, none, some abortErr, a, false, none⟩ t
    else
      match script 0 (a + 1) with
      | .ok str =>
        if validateContent regexSem str s = false then
          primaryLoop s regexSem script ab fuel (a + 1) (t + 1) (some contentErr)
        else .done ⟨true, some (.str str), none, a + 1, false, none⟩ (t + 1)
      | .okOther => .done ⟨true, some .other, none, a + 1, false, none⟩ (t + 1)
      | .err e =>
        if ab (t + 1) then .done ⟨false, none, some abortErr, a + 1, false, none⟩ (t + 1)
        else if isRetryableError e = false then .fellThrough (a + 1) (some e) (t + 1)
        else
          if (if isRateLimitError e then s.rateLimitMaxRetries else s.maxRetries) ≤ a + 1 then
            .fellThrough (a + 1) (some e) (t + 1)
          else primaryLoop s regexSem script ab fuel (a + 1) (t + 1) (some e)

/-- Translation of the inner fallback `while (attempt < maxRetries)`
loop of `executeRetryLoop` (retry-engine.ts lines 283-333), run against
the usable fallback descriptor `fm` whose script backend index is
`bIdx`.  It differs from the primary loop in that its returns carry
`usedFallback = true` and the current fallback descriptor, and its
retry-exhaustion check compares against `maxRetries` only (line 327),
with no rate-limit-specific cap. -/
def fallbackLoop (s : Settings) (regexSem : String → Option (String → Bool))
    (script : Nat → Nat → AttemptOutcome) (ab : Nat → Bool)
    (bIdx : Nat) (fm : FallbackModel) :
    Nat → Nat → Nat → Option JsError → LoopExit
  | 0, a, t, lastErr => .fellThrough a lastErr t
  | fuel + 1, a, t, _lastErr =>
    if ab t then .done ⟨false, none, some abortErr, a, true, some fm⟩ t
    else
      match script bIdx (a + 1) with
      | .ok str =>
        if validateContent regexSem str s = false then
          fallbackLoop s regexSem script ab bIdx fm fuel (a + 1) (t + 1) (some contentErr)
        else .done ⟨true, some (.str str), none, a + 1, true, some fm⟩ (t + 1)
      | .okOther => .done ⟨true, some .other, none, a + 1, true, some fm⟩ (t + 1)
      | .err e =>
        if ab (t + 1) then .done ⟨false, none, some abortErr, a + 1, true, some fm⟩ (t + 1)
        else if isRetryableError e = false then .fellThrough (a + 1) (some e) (t + 1)
        else if s.maxRetries ≤ a + 1 then .fellThrough (a + 1) (some e) (t + 1)
        else fallbackLoop s regexSem script ab bIdx fm fuel (a + 1) (t + 1) (some e)

/-- Translation of the `for` loop over `settings.fallbackModels`
(retry-engine.ts lines 250-334) together with the final failure return
(line 341).  `idx` is the loop index `i`; a descriptor with an empty
`apiurl` or `model` is skipped by `continue`; a usable one sets
`usedFallback` and `currentFallbackModel`, resets `attempt` to `0` and
runs the fallback loop; the state threads on if that loop falls
through.  Backend index `idx + 1` is used for the rebuilt operation in
the attempt script. -/
def cascade (s : Settings) (regexSem : String → Option (String → Bool))
    (script : Nat → Nat → AttemptOutcome) (ab : Nat → Bool) :
    List FallbackModel → Nat → Nat → Nat → Option JsError →
      Option FallbackModel → Bool → RetryResult × Nat
  | [], _, a, t, lastErr, cfm, uf => (⟨false, none, lastErr, a, uf, cfm⟩, t)
  | fm :: rest, idx, a, t, lastErr, cfm, uf =>
    if fm.apiurl = "" ∨ fm.model = "" then
      cascade s regexSem script ab rest (idx + 1) a t lastErr cfm uf
    else
      match fallbackLoop s regexSem script ab (idx + 1) fm s.maxRetries 0 t lastErr with
      | .done r tEnd => (r, tEnd)
      | .fellThrough a2 le2 t2 =>
        cascade s regexSem script ab rest (idx + 1) a2 t2 le2 (some fm) true

/-- Translation of `executeRetryLoop` (retry-engine.ts lines 170-342):
run the primary loop; if it falls through and fallbacks are enabled and
present, run the cascade; otherwise return the overall failure result.
The second component of the pair is the total number of attempts
executed in the run (the model's instrumentation; the source returns
only the `RetryResult`). -/
def executeRetryLoopT (s : Settings) (regexSem : String → Option (String → Bool))
    (script : Nat → Nat → AttemptOutcome) (ab : Nat → Bool) : RetryResult × Nat :=
  match primaryLoop s regexSem script ab s.maxRetries 0 0 none with
  | .done r t => (r, t)
  | .fellThrough a lastErr t =>
    if s.fallbackModelsEnabled = true ∧ s.fallbackModels ≠ [] then
      cascade s regexSem script ab s.fallbackModels 0 a t lastErr none false
    else (⟨false, none, lastErr, a, false, none⟩, t)

/-- Registry of active generation contexts, modelled by which
generation ids currently have an entry (`activeContexts`,
retry-engine.ts line 25). -/
def Registry : Type := String → Bool

/-- Effect of `activeContexts.set(generationId, ctx)` on the modelled
registry (retry-engine.ts line 160). -/
def registrySet (r : Registry) (id0 : String) : Registry :=
  fun x => if x = id0 then true else r x

/-- Effect of `activeContexts.delete(generationId)` on the modelled
registry (retry-engine.ts line 166). -/
def registryDelete (r : Registry) (id0 : String) : Registry :=
  fun x => if x = id0 then false else r x

/-- Translation of `getActiveContext` (retry-engine.ts lines 27-29) at
the level of entry presence: `true` when the id has an entry. -/
def getActiveContext (r : Registry) (generationId : String) : Bool :=
  r generationId

/-- The single pass-through invocation of the filtered path of
`executeWithRetry` (retry-engine.ts lines 141-148): one call of `fn`,
its success or failure returned directly with `attempts = 1` and no
fallback. -/
def singleAttemptResult (o : AttemptOutcome) : RetryResult :=
  match o with
  | .ok str => ⟨true, some (.str str), none, 1, false, none⟩
  | .okOther => ⟨true, some .other, none, 1, false, none⟩
  | .err e => ⟨false, none, some e, 1, false, none⟩

/-- Translation of `executeWithRetry` (retry-engine.ts lines 130-168)
as a transformer of the modelled registry: the filter gate first (one
unretried call, registry untouched); otherwise the context is
registered, the retry loop runs to a settled result, and the
`try/finally` deletes the entry. -/
def executeWithRetry (s : Settings) (regexSem : String → Option (String → Bool))
    (script : Nat → Nat → AttemptOutcome) (ab : Nat → Bool)
    (generationId : String) (r : Registry) : RetryResult × Registry :=
  if shouldRetryGeneration generationId s = false then
    (singleAttemptResult (script 0 1), r)
  else
    let r1 := registrySet r generationId
    ((executeRetryLoopT s regexSem script ab).1, registryDelete r1 generationId)

/-- Observation of the mutable context made by one firing of the
1-second polling callback installed by `raceWithTimeouts`
(retry-engine.ts lines 359-374): the abort flag, the content-received
flag, and `Date.now() - ctx.lastTokenTime` in milliseconds at that
tick. -/
structure TickObs where
  aborted : Bool
  hasReceivedContent : Bool
  timeSinceLastToken : Nat
  deriving DecidableEq

/-- Settled state of the promise returned by `raceWithTimeouts`:
settled with the underlying operation's own outcome, rejected with the
`new Error('Streaming timeout')`, or never settled (`hang`: `cleanup`
ran, setting `resolved`, without any `resolve` or `reject` call, so the
`then`/`catch` handlers are suppressed forever). -/
inductive RaceResult where
  | settled (o : AttemptOutcome)
  | streamTimeout
  | hang
  deriving DecidableEq

/-- Translation of the polling callback of `raceWithTimeouts`
(retry-engine.ts lines 359-374) over the list of tick observations that
fire before the underlying promise settles.  A tick seeing the abort
flag runs `cleanup()` and returns, which stops the interval and,
because `resolved` is now `true`, suppresses the later settlement of
the underlying promise: the race hangs.  A tick seeing received content
and a stall longer than `streamingTimeoutMs` rejects with the streaming
timeout.  If no tick fires a trigger, the race settles with the
operation's own outcome. -/
def raceSteps (s : Settings) (opOutcome : AttemptOutcome) : List TickObs → RaceResult
  | [] => .settled opOutcome
  | ob :: rest =>
    if ob.aborted then .hang
    else if ob.hasReceivedContent && decide (s.streamingTimeoutMs < ob.timeSinceLastToken) then
      .streamTimeout
    else raceSteps s opOutcome rest

/-- Translation of `raceWithTimeouts` (retry-engine.ts lines 344-391):
the polling interval is installed only when the context is streaming
(line 358); otherwise the race settles with exactly the underlying
promise's outcome. -/
def raceWithTimeouts (s : Settings) (isStreaming : Bool)
    (ticks : List TickObs) (opOutcome : AttemptOutcome) : RaceResult :=
  if isStreaming then raceSteps s opOutcome ticks else .settled opOutcome

/-- Configuration holding exactly the schema defaults of settings.ts
lines 10-38 (`maxRetries = 3`, `rateLimitMaxRetries = 5`, fallbacks and
filtering disabled). -/
def sDefault : Settings :=
  { enabled := true
    maxRetries := 3
    retryDelayMs := 1000
    retryDelayMultiplier := (3 : Rat) / 2
    rateLimitDelayMs := 30000
    rateLimitMaxRetries := 5
    streamingTimeoutMs := 30000
    requiredContentEnabled := false
    requiredContentPattern := ""
    requiredContentIsRegex := false
    fallbackModelsEnabled := false
    fallbackModels := []
    filterEnabled := false
    filterMode := .blacklist
    filterGenerationIds := []
    showRetryToast := true
    showSuccessToast := true
    showFailureToast := true }

/-- Regex capability under which every pattern fails to compile. -/
def regexNone : String → Option (String → Bool) := fun _ => none

/-- A failure value carrying HTTP status 429 and nothing else. -/
def err429 : JsError := ⟨false, "", some 429, none⟩

/-- A failure value carrying HTTP status 503 and nothing else. -/
def err503 : JsError := ⟨false, "", some 503, none⟩

example : isRateLimitError err429 = true := by decide
example : isRetryableError err429 = true := by decide
example : isRateLimitError err503 = false := by decide
example : isRetryableError err503 = true := by decide

example :
    executeRetryLoopT sDefault regexNone (fun _ _ => .err err429) abNever
      = (⟨false, none, some err429, 3, false, none⟩, 3) := by decide

example :
    executeRetryLoopT { sDefault with rateLimitMaxRetries := 2 } regexNone
      (fun _ _ => .err err429) abNever
      = (⟨false, none, some err429, 2, false, none⟩, 2) := by decide

/-- A usable fallback descriptor. -/
def fbGood : FallbackModel := ⟨"https://fallback.example", "key", "model-b", "openai"⟩

/-- An unusable fallback descriptor (empty model identifier). -/
def fbBad : FallbackModel := ⟨"https://fallback.example", "key", "", "openai"⟩

example :
    executeRetryLoopT
      { sDefault with maxRetries := 2, fallbackModelsEnabled := true, fallbackModels := [fbGood] }
      regexNone (fun _ _ => .err err503) abNever
      = (⟨false, none, some err503, 2, true, some fbGood⟩, 4) := by decide

example :
    executeRetryLoopT
      { sDefault with
        maxRetries := 2
        fallbackModelsEnabled := true
        fallbackModels := [fbBad, fbGood] }
      regexNone (fun _ _ => .err err503) abNever
      = (⟨false, none, some err503, 2, true, some fbGood⟩, 4) := by decide

example :
    raceWithTimeouts sDefault true [⟨false, true, 31000⟩] (.ok "late") = .streamTimeout := by
  decide

/-- Attempt script that always fails with the bare 429 error. -/
def scErr429 : Nat → Nat → AttemptOutcome := fun _ _ => .err err429

/-- Attempt script that always fails with the bare 503 error. -/
def scErr503 : Nat → Nat → AttemptOutcome := fun _ _ => .err err503

/-- Attempt script whose every attempt settles with a non-string
result. -/
def scOther : Nat → Nat → AttemptOutcome := fun _ _ => .okOther

/-- Registry with no active context. -/
def rEmpty : Registry := fun _ => false

/-- Observations of the polling callback over a 150-second streaming
attempt in which no token ever arrives: tick `k + 1` sees no received
content and `1000 * (k + 1)` ms elapsed since the attempt started. -/
def thinkTrace : List TickObs :=
  (List.range 150).map (fun k => ⟨false, false, 1000 * (k + 1)⟩)

/-- Counting invariant of the primary loop: entered with its attempt
counter equal to the total attempt count, every `return` carries
`attempts` equal to the total, no fallback markers, and every
fall-through keeps the two counters equal. -/
def loopExitCounts : LoopExit → Prop
  | .done r tEnd => r.attempts = tEnd ∧ r.usedFallback = false ∧ r.fallbackModel = none
  | .fellThrough a2 _ t2 => a2 = t2

lemma primaryLoop_counts (s : Settings) (rs : String → Option (String → Bool))
    (sc : Nat → Nat → AttemptOutcome) (ab : Nat → Bool) :
    ∀ (fuel a t : Nat) (le : Option JsError), a = t →
      loopExitCounts (primaryLoop s rs sc ab fuel a t le) := by
  intro fuel
  induction fuel with
  | zero =>
    intro a t le h
    simpa [primaryLoop, loopExitCounts] using h
  | succ f ih =>
    intro a t le h
    subst h
    simp only [primaryLoop]
    split
    · exact ⟨rfl, rfl, rfl⟩
    · split
      · split
        · exact ih (a + 1) (a + 1) (some contentErr) rfl
        · exact ⟨rfl, rfl, rfl⟩
      · exact ⟨rfl, rfl, rfl⟩
      · split
        · exact ⟨rfl, rfl, rfl⟩
        · split
          · rfl
          · split
            · split
              · rfl
              · exact ih (a + 1) (a + 1) _ rfl
            · split
              · rfl
              · exact ih (a + 1) (a + 1) _ rfl

lemma primaryLoop_allFail (s : Settings) (rs : String → Option (String → Bool))
    (sc : Nat → Nat → AttemptOutcome) (e : Nat → JsError)
    (hs : ∀ k, sc 0 k = .err (e k))
    (hr : ∀ k, isRetryableError (e k) = true)
    (hn : ∀ k, isRateLimitError (e k) = false) :
    ∀ (fuel a t : Nat) (le : Option JsError), fuel + a = s.maxRetries → 1 ≤ fuel →
      primaryLoop s rs sc abNever fuel a t le
        = .fellThrough s.maxRetries (some (e s.maxRetries)) (t + fuel) := by
  intro fuel
  induction fuel with
  | zero =>
    intro a t le hfa hpos
    exact absurd hpos (by omega)
  | succ f ih =>
    intro a t le hfa _
    have hstep : primaryLoop s rs sc abNever (f + 1) a t le
        = (if s.maxRetries ≤ a + 1
           then .fellThrough (a + 1) (some (e (a + 1))) (t + 1)
           else primaryLoop s rs sc abNever f (a + 1) (t + 1) (some (e (a + 1)))) := by
      simp [primaryLoop, abNever, hs (a + 1), hr (a + 1), hn (a + 1)]
    rw [hstep]
    cases f with
    | zero =>
      have ha : a + 1 = s.maxRetries := by omega
      rw [if_pos (by omega : s.maxRetries ≤ a + 1), ha]
    | succ f2 =>
      rw [if_neg (by omega : ¬s.maxRetries ≤ a + 1),
        ih (a + 1) (t + 1) (some (e (a + 1))) (by omega) (by omega)]
      congr 1
      omega

/-- C1: claimed behaviour — a run whose every attempt fails
rate-limited should make exactly `rateLimitMaxRetries` attempts even
when that exceeds `maxRetries`.  Under the schema defaults
(`maxRetries = 3`, `rateLimitMaxRetries = 5`) an always-429 operation
makes exactly 3 attempts before the engine gives up: the outer
`while (attempt < maxRetries)` guard terminates the loop before the
rate-limit-specific cap is ever reached, so the effective cap is
`min maxRetries rateLimitMaxRetries`, refuting the claim. -/
theorem c1_rate_limit_budget_capped_by_max_retries :
    sDefault.maxRetries = 3 ∧ sDefault.rateLimitMaxRetries = 5 ∧
    executeRetryLoopT sDefault regexNone scErr429 abNever
      = (⟨false, none, some err429, 3, false, none⟩, 3) := by
  decide

/-- C2: claimed behaviour — an abort flag observed by the timeout
race's polling callback should reject the race with an "aborted by
user" failure so the run terminates Aborted.  In the code the callback
body for an observed abort is `cleanup(); return;`, which sets
`resolved` and clears the interval without calling `reject`, so the
race promise never settles at all: at a streaming attempt whose first
polling tick sees the abort flag, the race hangs — it is not an
"aborted by user" rejection, not any settled outcome, and not even the
operation's own success that was in flight. -/
theorem c2_abort_observed_by_race_hangs :
    raceWithTimeouts sDefault true [⟨true, false, 0⟩] (.ok "done") = .hang ∧
    decide (RaceResult.hang = RaceResult.settled (.err abortErr)) = false ∧
    decide (RaceResult.hang = RaceResult.settled (.ok "done")) = false := by
  refine ⟨by decide, by decide, by decide⟩

/-- C3: claimed behaviour — the race should evaluate a pre-content
"thinking" timeout distinct from the streaming-stall timeout, firing a
timeout-induced failure on some execution with zero tokens received.
In the code the only time-based trigger requires
`ctx.hasReceivedContent` to be true, and `Settings` carries no thinking
threshold at all: over a 150-second no-token streaming trace (far past
the documented 120 s thinking limit and the 30 s stall limit) the race
fires nothing and merely passes the operation's own outcome through,
and likewise at a single tick showing 600 s elapsed without content. -/
theorem c3_no_precontent_timeout_trigger :
    raceWithTimeouts sDefault true thinkTrace (.ok "late") = .settled (.ok "late") ∧
    raceWithTimeouts sDefault true [⟨false, false, 600000⟩] (.err err503)
      = .settled (.err err503) := by
  exact ⟨by decide, by decide⟩

/-- C4 counterexample: with `maxRetries = 2` and one usable fallback,
an always-failing retryable operation makes 4 attempts in total
(2 primary + 2 fallback), but the returned `attempts` field is 2: the
`attempt` counter is reset to zero when a fallback loop starts, so the
overall-failure result does not carry the total attempt count the
claim states. -/
theorem c4_attempts_not_total_counterexample :
    (executeRetryLoopT
        { sDefault with
          maxRetries := 2
          fallbackModelsEnabled := true
          fallbackModels := [fbGood] }
        regexNone scErr503 abNever).2 = 4 ∧
    (executeRetryLoopT
        { sDefault with
          maxRetries := 2
          fallbackModelsEnabled := true
          fallbackModels := [fbGood] }
        regexNone scErr503 abNever).1.success = false ∧
    (executeRetryLoopT
        { sDefault with
          maxRetries := 2
          fallbackModelsEnabled := true
          fallbackModels := [fbGood] }
        regexNone scErr503 abNever).1.attempts = 2 ∧
    decide
        ((executeRetryLoopT
            { sDefault with
              maxRetries := 2
              fallbackModelsEnabled := true
              fallbackModels := [fbGood] }
            regexNone scErr503 abNever).1.attempts
          = (executeRetryLoopT
              { sDefault with
                maxRetries := 2
                fallbackModelsEnabled := true
                fallbackModels := [fbGood] }
              regexNone scErr503 abNever).2) = false := by
  decide

/-- C4 (amended): the overall-failure result carries the last observed
failure cause and the fallback flags, but its `attempts` field counts
only the last retry loop that executed, because the counter is reset
per fallback; it equals the total number of attempts made in the run
exactly when no usable fallback loop ran — in particular, whenever the
fallback cascade is disabled, the returned `attempts` equals the total
attempt count and the fallback flags are unset, on every outcome
path. -/
theorem c4_attempts_equal_total_when_no_fallback (s : Settings)
    (rs : String → Option (String → Bool)) (sc : Nat → Nat → AttemptOutcome)
    (ab : Nat → Bool) (h : s.fallbackModelsEnabled = false) :
    (executeRetryLoopT s rs sc ab).1.attempts = (executeRetryLoopT s rs sc ab).2 ∧
    (executeRetryLoopT s rs sc ab).1.usedFallback = false ∧
    (executeRetryLoopT s rs sc ab).1.fallbackModel = none := by
  have hc := primaryLoop_counts s rs sc ab s.maxRetries 0 0 none rfl
  cases hp : primaryLoop s rs sc ab s.maxRetries 0 0 none with
  | done r t =>
    rw [hp] at hc
    simp only [executeRetryLoopT, hp]
    exact hc
  | fellThrough a le t =>
    rw [hp] at hc
    simp only [executeRetryLoopT, hp, h]
    simp [loopExitCounts] at hc
    simp [hc]

/-- Witness for the amended C4 theorem at the default configuration
(fallback disabled) and an always-503 operation. -/
theorem c4_amended_witness :
    (executeRetryLoopT sDefault regexNone scErr503 abNever).1.attempts
        = (executeRetryLoopT sDefault regexNone scErr503 abNever).2 ∧
    (executeRetryLoopT sDefault regexNone scErr503 abNever).1.usedFallback = false ∧
    (executeRetryLoopT sDefault regexNone scErr503 abNever).1.fallbackModel = none :=
  c4_attempts_equal_total_when_no_fallback sDefault regexNone scErr503 abNever rfl

/-- A failure value carrying HTTP status 404 and nothing else. -/
def err404 : JsError := ⟨false, "", some 404, none⟩

/-- An `Error` whose message matches a network keyword only. -/
def errTimeoutMsg : JsError := ⟨true, "Connection timeout", none, none⟩

/-- An `Error` whose message matches a rate-limit keyword only. -/
def errQuota : JsError := ⟨true, "Daily quota exceeded", none, none⟩

/-- C5: classification law of the error classifier — an effective
status of 429 or a rate-limit keyword in the lower-cased message makes
`isRateLimitError` true; a status in [500,599] or a network/timeout
keyword makes `isRetryableError` true; a status in {400,401,403,404}
with no such message keywords makes `isRetryableError` false; and
`isRateLimitError` always implies `isRetryableError`. -/
theorem c5_error_classification :
    (∀ e : JsError, effStatus e = some 429 → isRateLimitError e = true) ∧
    (∀ e : JsError, e.isError = true → rateLimitMsg (toLowerStr e.message) = true →
      isRateLimitError e = true) ∧
    (∀ (e : JsError) (n : Int), effStatus e = some n → 500 ≤ n → n ≤ 599 →
      isRetryableError e = true) ∧
    (∀ e : JsError, e.isError = true → networkMsg (toLowerStr e.message) = true →
      isRetryableError e = true) ∧
    (∀ (e : JsError) (n : Int), effStatus e = some n →
      (n = 400 ∨ n = 401 ∨ n = 403 ∨ n = 404) →
      (e.isError = false ∨
        (rateLimitMsg (toLowerStr e.message) = false ∧ networkMsg (toLowerStr e.message) = false)) →
      isRetryableError e = false) ∧
    (∀ e : JsError, isRateLimitError e = true → isRetryableError e = true) := by
  refine ⟨?_, ?_, ?_, ?_, ?_, ?_⟩
  · intro e h
    simp [isRateLimitError, h]
  · intro e h1 h2
    simp [isRateLimitError, h1, h2]
  · intro e n h h5 h6
    unfold isRetryableError
    split
    · rfl
    · split
      · rfl
      · rw [h]
        simp
        omega
  · intro e h1 h2
    unfold isRetryableError
    split
    · rfl
    · simp [h1, h2]
  · intro e n h hmem hmsg
    have hrlm : (e.isError && rateLimitMsg (toLowerStr e.message)) = false := by
      rcases hmsg with hE | ⟨hR, _⟩
      · simp [hE]
      · simp [hR]
    have hnet : (e.isError && networkMsg (toLowerStr e.message)) = false := by
      rcases hmsg with hE | ⟨_, hN⟩
      · simp [hE]
      · simp [hN]
    have hrl : isRateLimitError e = false := by
      unfold isRateLimitError
      rw [hrlm, h]
      simp
      rcases hmem with h4 | h4 | h4 | h4 <;> omega
    unfold isRetryableError
    rw [hrl, hnet, h]
    simp
    intro hge
    rcases hmem with h4 | h4 | h4 | h4 <;> omega
  · intro e h
    simp [isRetryableError, h]

/-- Witness for the C5 classification law at concrete failure
values. -/
theorem c5_witness :
    isRateLimitError err429 = true ∧
    isRateLimitError errQuota = true ∧
    isRetryableError err503 = true ∧
    isRetryableError errTimeoutMsg = true ∧
    isRetryableError err404 = false ∧
    isRetryableError err429 = true := by
  obtain ⟨h1, h2, h3, h4, h5, h6⟩ := c5_error_classification
  exact ⟨h1 err429 rfl, h2 errQuota rfl (by decide),
    h3 err503 503 rfl (by decide) (by decide), h4 errTimeoutMsg rfl (by decide),
    h5 err404 404 rfl (by decide) (Or.inl rfl), h6 err429 (h1 err429 rfl)⟩

/-- Configuration with the default values except `maxRetries = 2`. -/
def sMax2 : Settings := { sDefault with maxRetries := 2 }

/-- C6: a run whose operation always fails with an ordinary retryable
(non-rate-limited) error makes exactly `maxRetries` attempts in the
primary loop before falling through; with fallback disabled the run
then fails carrying that attempt count, and an unusable fallback
descriptor (empty endpoint or empty model identifier) is skipped by
the cascade, which proceeds to the remaining descriptors with its
state unchanged rather than aborting. -/
theorem c6_ordinary_retryable_exhaustion (s : Settings)
    (rs : String → Option (String → Bool)) (sc : Nat → Nat → AttemptOutcome)
    (e : Nat → JsError) (h1 : 1 ≤ s.maxRetries)
    (hs : ∀ k, sc 0 k = .err (e k))
    (hr : ∀ k, isRetryableError (e k) = true)
    (hn : ∀ k, isRateLimitError (e k) = false) :
    primaryLoop s rs sc abNever s.maxRetries 0 0 none
        = .fellThrough s.maxRetries (some (e s.maxRetries)) s.maxRetries ∧
    (s.fallbackModelsEnabled = false →
      executeRetryLoopT s rs sc abNever
        = (⟨false, none, some (e s.maxRetries), s.maxRetries, false, none⟩, s.maxRetries)) ∧
    (∀ (fm : FallbackModel) (rest : List FallbackModel) (idx a t : Nat)
        (le : Option JsError) (cfm : Option FallbackModel) (uf : Bool),
      fm.apiurl = "" ∨ fm.model = "" →
      cascade s rs sc abNever (fm :: rest) idx a t le cfm uf
        = cascade s rs sc abNever rest (idx + 1) a t le cfm uf) := by
  have hp := primaryLoop_allFail s rs sc e hs hr hn s.maxRetries 0 0 none (by omega) h1
  rw [Nat.zero_add] at hp
  refine ⟨hp, ?_, ?_⟩
  · intro hfb
    simp [executeRetryLoopT, hp, hfb]
  · intro fm rest idx a t le cfm uf hbad
    simp only [cascade]
    rw [if_pos hbad]

/-- Witness for the C6 exhaustion theorem: `maxRetries = 2`, an
always-503 operation, and the skip of a descriptor with an empty model
identifier. -/
theorem c6_witness :
    primaryLoop sMax2 regexNone scErr503 abNever 2 0 0 none
        = .fellThrough 2 (some err503) 2 ∧
    executeRetryLoopT sMax2 regexNone scErr503 abNever
        = (⟨false, none, some err503, 2, false, none⟩, 2) ∧
    cascade sMax2 regexNone scErr503 abNever [fbBad] 0 2 2 (some err503) none false
        = cascade sMax2 regexNone scErr503 abNever [] 1 2 2 (some err503) none false := by
  obtain ⟨g1, g2, g3⟩ := c6_ordinary_retryable_exhaustion sMax2 regexNone scErr503
    (fun _ => err503) (by decide) (fun _ => rfl)
    (fun _ => show isRetryableError err503 = true by decide)
    (fun _ => show isRateLimitError err503 = false by decide)
  exact ⟨g1, g2 rfl, g3 fbBad [] 0 2 2 (some err503) none false (Or.inr rfl)⟩

/-- C7: with id-filtering enabled, a member in blacklist mode or a
non-member in whitelist mode gets exactly one unretried invocation
whose success or failure is passed straight through (`attempts = 1`,
no fallback, registry untouched), while a member in whitelist mode or
a non-member in blacklist mode goes through the full retry machinery
(the gate answers true and the run is the retry loop's result with the
registered entry cleaned up). -/
theorem c7_filter_gate_single_attempt (s : Settings)
    (rs : String → Option (String → Bool)) (sc : Nat → Nat → AttemptOutcome)
    (ab : Nat → Bool) (gid : String) (r : Registry)
    (hf : s.filterEnabled = true) :
    (((s.filterMode = .blacklist ∧ s.filterGenerationIds.contains gid = true) ∨
      (s.filterMode = .whitelist ∧ s.filterGenerationIds.contains gid = false)) →
      executeWithRetry s rs sc ab gid r = (singleAttemptResult (sc 0 1), r) ∧
      (singleAttemptResult (sc 0 1)).attempts = 1 ∧
      (singleAttemptResult (sc 0 1)).usedFallback = false) ∧
    (((s.filterMode = .whitelist ∧ s.filterGenerationIds.contains gid = true) ∨
      (s.filterMode = .blacklist ∧ s.filterGenerationIds.contains gid = false)) →
      shouldRetryGeneration gid s = true ∧
      executeWithRetry s rs sc ab gid r
        = ((executeRetryLoopT s rs sc ab).1,
            registryDelete (registrySet r gid) gid)) := by
  constructor
  · rintro (⟨hm, hin⟩ | ⟨hm, hin⟩)
    · have hmem := List.mem_of_elem_eq_true hin
      have hsr : shouldRetryGeneration gid s = false := by
        simp [shouldRetryGeneration, hf, hm, hmem]
      exact ⟨by simp [executeWithRetry, hsr], by cases sc 0 1 <;> rfl,
        by cases sc 0 1 <;> rfl⟩
    · have hmem : gid ∉ s.filterGenerationIds := by
        intro hx
        have hin2 : s.filterGenerationIds.elem gid = false := hin
        rw [List.elem_eq_true_of_mem hx] at hin2
        cases hin2
      have hsr : shouldRetryGeneration gid s = false := by
        simp [shouldRetryGeneration, hf, hm, hmem]
      exact ⟨by simp [executeWithRetry, hsr], by cases sc 0 1 <;> rfl,
        by cases sc 0 1 <;> rfl⟩
  · rintro (⟨hm, hin⟩ | ⟨hm, hin⟩)
    · have hmem := List.mem_of_elem_eq_true hin
      have hsr : shouldRetryGeneration gid s = true := by
        simp [shouldRetryGeneration, hf, hm, hmem]
      exact ⟨hsr, by simp [executeWithRetry, hsr]⟩
    · have hmem : gid ∉ s.filterGenerationIds := by
        intro hx
        have hin2 : s.filterGenerationIds.elem gid = false := hin
        rw [List.elem_eq_true_of_mem hx] at hin2
        cases hin2
      have hsr : shouldRetryGeneration gid s = true := by
        simp [shouldRetryGeneration, hf, hm, hmem]
      exact ⟨hsr, by simp [executeWithRetry, hsr]⟩

/-- Configuration with filtering enabled in blacklist mode over the
single id `"blocked"`. -/
def sFilter : Settings :=
  { sDefault with
    filterEnabled := true
    filterGenerationIds := ["blocked"] }

/-- Witness for the C7 filter gate at the blacklist configuration: the
blacklisted id is passed straight through and a non-member id is
retried normally. -/
theorem c7_witness :
    executeWithRetry sFilter regexNone scErr503 abNever "blocked" rEmpty
        = (singleAttemptResult (scErr503 0 1), rEmpty) ∧
    shouldRetryGeneration "other" sFilter = true := by
  refine ⟨((c7_filter_gate_single_attempt sFilter regexNone scErr503 abNever
      "blocked" rEmpty rfl).1 (Or.inl ⟨rfl, by decide⟩)).1, ?_⟩
  exact ((c7_filter_gate_single_attempt sFilter regexNone scErr503 abNever
      "other" rEmpty rfl).2 (Or.inr ⟨rfl, by decide⟩)).1

lemma hasSubList_nil (l : List Char) : hasSubList [] l = true := by
  cases l <;> rfl

lemma includesSub_empty (c : String) : includesSub c "" = true :=
  hasSubList_nil c.data

/-- Configuration requiring, as a regex, a pattern on which the
modelled regex compilation fails. -/
def sRegexBad : Settings :=
  { sDefault with
    requiredContentEnabled := true
    requiredContentPattern := "("
    requiredContentIsRegex := true }

/-- Configuration requiring the literal pattern `"json"`. -/
def sLit : Settings :=
  { sDefault with
    requiredContentEnabled := true
    requiredContentPattern := "json" }

/-- C8: content validation fails open and never blocks — with
validation disabled or an empty pattern every content is valid; in
regex mode an uncompilable pattern makes every content valid; in
literal mode validity is exactly substring containment of the pattern;
and a non-string attempt result bypasses validation entirely, the loop
returning it as a success regardless of the validation settings. -/
theorem c8_content_validation_fail_open :
    (∀ (rs : String → Option (String → Bool)) (c : String) (s : Settings),
      s.requiredContentEnabled = false ∨ s.requiredContentPattern = "" →
      validateContent rs c s = true) ∧
    (∀ (rs : String → Option (String → Bool)) (c : String) (s : Settings),
      s.requiredContentIsRegex = true → rs s.requiredContentPattern = none →
      validateContent rs c s = true) ∧
    (∀ (rs : String → Option (String → Bool)) (c : String) (s : Settings),
      s.requiredContentIsRegex = false → s.requiredContentEnabled = true →
      validateContent rs c s = includesSub c s.requiredContentPattern) ∧
    (∀ (s : Settings) (rs : String → Option (String → Bool))
        (sc : Nat → Nat → AttemptOutcome) (ab : Nat → Bool),
      1 ≤ s.maxRetries → ab 0 = false → sc 0 1 = .okOther →
      executeRetryLoopT s rs sc ab = (⟨true, some .other, none, 1, false, none⟩, 1)) := by
  refine ⟨?_, ?_, ?_, ?_⟩
  · intro rs c s h
    rcases h with h | h <;> simp [validateContent, h]
  · intro rs c s h1 h2
    unfold validateContent
    split
    · rfl
    · simp [h1, h2]
  · intro rs c s h1 h2
    unfold validateContent
    split
    · rename_i hcond
      rw [h2] at hcond
      simp at hcond
      rw [hcond, includesSub_empty]
    · simp [h1]
  · intro s rs sc ab h1 h2 h3
    obtain ⟨m, hm⟩ : ∃ m, s.maxRetries = m + 1 := ⟨s.maxRetries - 1, by omega⟩
    simp [executeRetryLoopT, hm, primaryLoop, h2, h3]

/-- Witness for the C8 fail-open law at concrete configurations. -/
theorem c8_witness :
    validateContent regexNone "abc" sDefault = true ∧
    validateContent regexNone "abc" sRegexBad = true ∧
    validateContent regexNone "say json ok" sLit = includesSub "say json ok" "json" ∧
    executeRetryLoopT sDefault regexNone scOther abNever
      = (⟨true, some .other, none, 1, false, none⟩, 1) := by
  obtain ⟨g1, g2, g3, g4⟩ := c8_content_validation_fail_open
  exact ⟨g1 regexNone "abc" sDefault (Or.inl rfl), g2 regexNone "abc" sRegexBad rfl rfl,
    g3 regexNone "say json ok" sLit rfl rfl,
    g4 sDefault regexNone scOther abNever (by decide) rfl rfl⟩

/-- C9: every run that takes the retrying path (and hence registers a
generation context) has its registry entry removed once the run
settles, whatever the outcome path inside the loop: looking the id up
in the returned registry finds nothing. -/
theorem c9_registry_entry_removed (s : Settings)
    (rs : String → Option (String → Bool)) (sc : Nat → Nat → AttemptOutcome)
    (ab : Nat → Bool) (gid : String) (r : Registry)
    (h : shouldRetryGeneration gid s = true) :
    getActiveContext (executeWithRetry s rs sc ab gid r).2 gid = false := by
  simp [executeWithRetry, h, getActiveContext, registryDelete]

/-- Witness for the C9 cleanup theorem at the default (unfiltered)
configuration. -/
theorem c9_witness :
    getActiveContext
      (executeWithRetry sDefault regexNone scErr503 abNever "gen-1" rEmpty).2 "gen-1"
      = false :=
  c9_registry_entry_removed sDefault regexNone scErr503 abNever "gen-1" rEmpty rfl

/-- C10: for a non-streaming context `raceWithTimeouts` installs no
polling timer and settles with exactly the underlying operation's own
outcome, whatever observations the ticks would have made; and even for
a streaming context the streaming-stall failure is never produced on
an execution none of whose ticks has seen received content. -/
theorem c10_race_transparency (s : Settings) :
    (∀ (ticks : List TickObs) (o : AttemptOutcome),
      raceWithTimeouts s false ticks o = .settled o) ∧
    (∀ (ticks : List TickObs) (o : AttemptOutcome),
      (∀ ob ∈ ticks, ob.hasReceivedContent = false) →
      raceWithTimeouts s true ticks o ≠ .streamTimeout) := by
  constructor
  · intro ticks o
    rfl
  · intro ticks o
    induction ticks with
    | nil =>
      intro _
      simp [raceWithTimeouts, raceSteps]
    | cons ob rest ih =>
      intro h
      have hob := h ob (List.mem_cons_self ob rest)
      have hrest : raceSteps s o rest ≠ .streamTimeout := by
        simpa [raceWithTimeouts] using ih (fun x hx => h x (List.mem_cons_of_mem ob hx))
      cases hab : ob.aborted <;>
        simp [raceWithTimeouts, raceSteps, hob, hab, hrest]

/-- Witness for the C10 transparency theorem: a non-streaming race
passes its outcome through even past the stall threshold, and a
streaming race with no received content never stalls out. -/
theorem c10_witness :
    raceWithTimeouts sDefault false [⟨false, true, 999999⟩] (.ok "v") = .settled (.ok "v") ∧
    raceWithTimeouts sDefault true [⟨false, false, 999999⟩] (.err err503)
      ≠ .streamTimeout := by
  refine ⟨(c10_race_transparency sDefault).1 _ _, (c10_race_transparency sDefault).2 _ _ ?_⟩
  intro ob hob
  simp only [List.mem_singleton] at hob
  rw [hob]

end AutoRetry
